import Mathlib

/-!
Verification of the trainingpeaks-cli core against its specification.

Python strings are modelled as `List Char` (`Str`), Python numbers
(ints and floats) as `ℚ`, dictionaries as records with `Option` fields
(`none` = key absent or `None`), and fallible code as `Except`/`Option`.
Each definition is a direct translation of the named source function.
-/

/-- Python strings, modelled as character lists so that all operations
are structurally recursive and kernel-computable. -/
abbrev Str := List Char

/-- Shorthand turning a Lean string literal into the `Str` model. -/
def sl (s : String) : Str := s.toList

/-- ASCII lower-casing of one character, the relevant fragment of
Python `str.lower` for this code base (all compared tokens are ASCII). -/
def asciiLower (c : Char) : Char :=
  if 65 ≤ c.toNat ∧ c.toNat ≤ 90 then Char.ofNat (c.toNat + 32) else c

/-- Python `str.lower` on the modelled domain. -/
def lowerL (s : Str) : Str := s.map asciiLower

/-- Whitespace characters stripped by Python `str.strip`. -/
def isSpaceL (c : Char) : Bool :=
  c = ' ' ∨ c = '\t' ∨ c = '\n' ∨ c = '\r'

/-- Python `str.strip`: drop leading and trailing whitespace. -/
def trimL (s : Str) : Str :=
  ((s.dropWhile isSpaceL).reverse.dropWhile isSpaceL).reverse

/-- Does `s` start with `p`? -/
def startsWithL : Str → Str → Bool
  | [], _ => true
  | _ :: _, [] => false
  | a :: as, b :: bs => a = b && startsWithL as bs

/-- Python substring test `needle in haystack`. -/
def containsL (needle : Str) : Str → Bool
  | [] => startsWithL needle []
  | c :: t => startsWithL needle (c :: t) || containsL needle t

/-- Python `str.endswith`. -/
def endsWithL (suf s : Str) : Bool := startsWithL suf.reverse s.reverse

/-- Python `str.split(sep)` for a one-character separator. -/
def splitOnCharL (sep : Char) : Str → List Str
  | [] => [[]]
  | c :: t =>
    let r := splitOnCharL sep t
    if c = sep then [] :: r
    else
      match r with
      | h :: t2 => (c :: h) :: t2
      | [] => [[c]]

/-- Numeric value of a digit run. -/
def digitsVal (s : Str) : ℕ := s.foldl (fun a c => a * 10 + (c.toNat - 48)) 0

/-- Python `int(q)` on a number: truncation toward zero. -/
def ratTrunc (q : ℚ) : ℤ := if q < 0 then -((-q).floor) else q.floor

/-- The `x or d` idiom on an optional string field: `None` and the
empty string are falsy and fall back to the default. -/
def strOr (x : Option Str) (d : Str) : Str :=
  match x with
  | none => d
  | some s => if s = [] then d else s

/-- The `x or d` idiom on an optional numeric field: `None` and `0`
are falsy and fall back to the default. -/
def numOr (x : Option ℚ) (d : ℚ) : ℚ :=
  match x with
  | none => d
  | some v => if v = 0 then d else v

/-! ## Zone classifier (src/tp_cli/core/classify.py) -/

/-- Zone threshold configuration (`DEFAULT_ZONE_THRESHOLDS` shape). -/
structure Thresholds where
  easy_max : ℚ
  lt1_max : ℚ
  lt2_max : ℚ
deriving DecidableEq

/-- `DEFAULT_ZONE_THRESHOLDS` from constants.py. -/
def defaultZoneThresholds : Thresholds := ⟨75, 93, 100⟩

/-- `_EASY_CLASSES` from classify.py. -/
def easyClasses : List Str := [sl "warmup", sl "cooldown", sl "rest", sl "recovery"]

/-- The `strip().lower()` normalization applied to block types and
intensity classes in `classify_zone`. -/
def normToken (s : Str) : Str := lowerL (trimL s)

/-- `classify_zone` from classify.py. -/
def classify_zone (pct : ℚ) (block_type intensity_class : Str)
    (thresholds : Thresholds) : Str :=
  if normToken block_type = sl "rampup" then sl "easy"
  else if normToken intensity_class ∈ easyClasses then sl "easy"
  else if pct ≤ thresholds.easy_max then sl "easy"
  else if pct ≤ thresholds.lt1_max then sl "lt1"
  else if pct ≤ thresholds.lt2_max then sl "lt2"
  else sl "vo2"

/-- Rank of the four zone labels in intensity order, for stating the
monotonicity of `classify_zone` in `pct`. -/
def zoneRank (z : Str) : ℕ :=
  if z = sl "easy" then 0
  else if z = sl "lt1" then 1
  else if z = sl "lt2" then 2
  else 3

/-! ## Weekly pattern classifier (src/tp_cli/core/analysis.py) -/

/-- `classify_week` from analysis.py. -/
def classify_week (total_distance : ℚ) (total_sessions : ℤ) (has_race : Bool)
    (delta_pct : Option ℚ) : Str :=
  if has_race then sl "race"
  else if total_sessions ≤ 2 ∧ total_distance < 20000 then sl "off"
  else
    match delta_pct with
    | none => sl "start"
    | some d =>
      if d < -25 then sl "recovery"
      else if d > 15 then sl "build"
      else sl "maintenance"

/-- On a non-rampup block with a non-easy intensity class,
`classify_zone` reduces to the pure threshold comparison chain. -/
theorem classify_zone_spec (th : Thresholds) (p : ℚ) (bt ic : Str)
    (hbt : normToken bt ≠ sl "rampup")
    (hic : normToken ic ∉ easyClasses) :
    classify_zone p bt ic th =
      (if p ≤ th.easy_max then sl "easy"
       else if p ≤ th.lt1_max then sl "lt1"
       else if p ≤ th.lt2_max then sl "lt2"
       else sl "vo2") := by
  unfold classify_zone
  rw [if_neg hbt, if_neg hic]

/-- C1: for thresholds with easy_max < lt1_max < lt2_max, a block type
not normalizing to "rampup" and an intensity class outside the easy
set, `classify_zone` is monotone non-decreasing in pct and sends a pct
equal to a threshold to the lower zone (pct ≤ easy_max → easy, else
≤ lt1_max → lt1, else ≤ lt2_max → lt2, else vo2); a "rampup" block
type always yields easy, and otherwise an easy-set intensity class
always yields easy. -/
theorem C1_classify_zone_props :
    (∀ (th : Thresholds) (p q : ℚ) (bt ic : Str),
      th.easy_max < th.lt1_max → th.lt1_max < th.lt2_max →
      normToken bt ≠ sl "rampup" →
      normToken ic ∉ easyClasses →
      p ≤ q →
      zoneRank (classify_zone p bt ic th) ≤ zoneRank (classify_zone q bt ic th))
    ∧ (∀ (th : Thresholds) (p : ℚ) (bt ic : Str),
      normToken bt ≠ sl "rampup" →
      normToken ic ∉ easyClasses →
      classify_zone p bt ic th =
        (if p ≤ th.easy_max then sl "easy"
         else if p ≤ th.lt1_max then sl "lt1"
         else if p ≤ th.lt2_max then sl "lt2"
         else sl "vo2"))
    ∧ (∀ (th : Thresholds) (p : ℚ) (bt ic : Str),
      normToken bt = sl "rampup" → classify_zone p bt ic th = sl "easy")
    ∧ (∀ (th : Thresholds) (p : ℚ) (bt ic : Str),
      normToken bt ≠ sl "rampup" →
      normToken ic ∈ easyClasses →
      classify_zone p bt ic th = sl "easy")
    ∧ (classify_zone 75 (sl "step") (sl "active") defaultZoneThresholds = sl "easy"
       ∧ classify_zone 76 (sl "step") (sl "active") defaultZoneThresholds = sl "lt1"
       ∧ classify_zone 93 (sl "step") (sl "active") defaultZoneThresholds = sl "lt1"
       ∧ classify_zone 94 (sl "step") (sl "active") defaultZoneThresholds = sl "lt2"
       ∧ classify_zone 100 (sl "step") (sl "active") defaultZoneThresholds = sl "lt2"
       ∧ classify_zone 101 (sl "step") (sl "active") defaultZoneThresholds = sl "vo2") := by
  refine ⟨?_, ?_, ?_, ?_, ?_⟩
  · intro th p q bt ic _ _ hbt hic hpq
    rw [classify_zone_spec th p bt ic hbt hic, classify_zone_spec th q bt ic hbt hic]
    split_ifs <;> first | decide | (exfalso; linarith)
  · exact fun th p bt ic => classify_zone_spec th p bt ic
  · intro th p bt ic hbt
    unfold classify_zone
    rw [if_pos hbt]
  · intro th p bt ic hbt hic
    unfold classify_zone
    rw [if_neg hbt, if_pos hic]
  · refine ⟨?_, ?_, ?_, ?_, ?_, ?_⟩ <;> decide

/-- Witness for C1 at thresholds {75, 93, 100}, pct 80 ≤ 95, block
type "step", intensity class "active". -/
theorem C1_classify_zone_props_witness :
    ((75 : ℚ) < 93 ∧ (93 : ℚ) < 100 ∧
      normToken (sl "step") ≠ sl "rampup" ∧
      normToken (sl "active") ∉ easyClasses ∧ (80 : ℚ) ≤ 95) ∧
    zoneRank (classify_zone 80 (sl "step") (sl "active") defaultZoneThresholds) ≤
      zoneRank (classify_zone 95 (sl "step") (sl "active") defaultZoneThresholds) := by
  refine ⟨⟨by decide, by decide, by decide, by decide, by decide⟩, ?_⟩
  exact C1_classify_zone_props.1 defaultZoneThresholds 80 95 (sl "step") (sl "active")
    (by decide) (by decide) (by decide) (by decide) (by decide)

/-- C4: `classify_week` is a total function evaluated in priority
order has_race → race, else ≤2 sessions and <20000 m → off, else no
baseline → start, else delta < −25 → recovery, else delta > 15 →
build, else maintenance; together with the six concrete examples from
the specification. -/
theorem C4_classify_week_props :
    (∀ (d : ℚ) (s : ℤ) (δ : Option ℚ), classify_week d s true δ = sl "race")
    ∧ (∀ (d : ℚ) (s : ℤ) (δ : Option ℚ),
      s ≤ 2 → d < 20000 → classify_week d s false δ = sl "off")
    ∧ (∀ (d : ℚ) (s : ℤ),
      ¬(s ≤ 2 ∧ d < 20000) → classify_week d s false none = sl "start")
    ∧ (∀ (d : ℚ) (s : ℤ) (x : ℚ),
      ¬(s ≤ 2 ∧ d < 20000) → x < -25 → classify_week d s false (some x) = sl "recovery")
    ∧ (∀ (d : ℚ) (s : ℤ) (x : ℚ),
      ¬(s ≤ 2 ∧ d < 20000) → ¬x < -25 → x > 15 →
      classify_week d s false (some x) = sl "build")
    ∧ (∀ (d : ℚ) (s : ℤ) (x : ℚ),
      ¬(s ≤ 2 ∧ d < 20000) → ¬x < -25 → ¬x > 15 →
      classify_week d s false (some x) = sl "maintenance")
    ∧ (classify_week 10000 3 true (some 10) = sl "race"
       ∧ classify_week 10000 2 false (some 0) = sl "off"
       ∧ classify_week 30000 5 false none = sl "start"
       ∧ classify_week 30000 5 false (some (-30)) = sl "recovery"
       ∧ classify_week 30000 5 false (some 20) = sl "build"
       ∧ classify_week 30000 5 false (some 3) = sl "maintenance") := by
  refine ⟨?_, ?_, ?_, ?_, ?_, ?_, ?_⟩
  · intro d s δ; simp [classify_week]
  · intro d s δ hs hd; simp [classify_week, hs, hd]
  · intro d s h; simp [classify_week, h]
  · intro d s x h hx; simp [classify_week, h, hx]
  · intro d s x h hx1 hx2; simp [classify_week, h, hx1, hx2]
  · intro d s x h hx1 hx2; simp [classify_week, h, hx1, hx2]
  · refine ⟨?_, ?_, ?_, ?_, ?_, ?_⟩ <;> decide

/-- Witness for C4 at the recovery example (30000 m, 5 sessions, no
race, delta −30). -/
theorem C4_classify_week_props_witness :
    (¬((5 : ℤ) ≤ 2 ∧ (30000 : ℚ) < 20000) ∧ (-30 : ℚ) < -25) ∧
    classify_week 30000 5 false (some (-30)) = sl "recovery" := by
  refine ⟨⟨by decide, by decide⟩, ?_⟩
  exact (C4_classify_week_props.2.2.2.1) 30000 5 (-30) (by decide) (by decide)

/-! ## Workout data model (JSON dictionaries, as far as the core reads them) -/

/-- A `length` dictionary: `{value, unit}` with optional keys. -/
structure Length where
  value : Option ℚ
  unit : Option Str
deriving DecidableEq

/-- A `target` dictionary: `{minValue, maxValue, value}` with optional keys. -/
structure Target where
  minValue : Option ℚ
  maxValue : Option ℚ
  value : Option ℚ
deriving DecidableEq

/-- The empty dictionary `{}` used as default for a missing length. -/
def emptyLength : Length := ⟨none, none⟩

/-- A block/step dictionary. The same JSON object can be read both as a
block (type, length, steps) and as a step (length, targets,
intensityClass), so one type models both, mirroring Python dicts.
Fields in order: type, length, steps, targets, intensityClass. -/
inductive JDict where
  | mk : Option Str → Option Length → Option (List JDict) →
      Option (List Target) → Option Str → JDict

/-- The `type` key. -/
def JDict.type? : JDict → Option Str
  | .mk t _ _ _ _ => t

/-- The `length` key. -/
def JDict.length? : JDict → Option Length
  | .mk _ l _ _ _ => l

/-- The `steps` key (`none` = key absent). -/
def JDict.steps? : JDict → Option (List JDict)
  | .mk _ _ s _ _ => s

/-- The `targets` key (`none` = key absent). -/
def JDict.targets? : JDict → Option (List Target)
  | .mk _ _ _ t _ => t

/-- The `intensityClass` key. -/
def JDict.intensityClass? : JDict → Option Str
  | .mk _ _ _ _ i => i

/-- One of the structure-bearing workout fields (`structuredSteps`,
`structuredWorkout`, `structure`) after `_parse_structure_value`:
absent/None, a string that fails `json.loads`, a parsed dict (with its
`primaryIntensityMetric`, `structure` and `steps` keys), a parsed
list, or some other parsed scalar. -/
inductive SField where
  | absent
  | badStr
  | pdict (metric : Option Str) (structureF : Option (List JDict))
      (stepsF : Option (List JDict))
  | plist (items : List JDict)
  | pother

/-- A workout record, with the fields the classification and zone code
reads. -/
structure Workout where
  title : Option Str
  description : Option Str
  coachComments : Option Str
  userTags : Option Str
  primaryIntensityMetric : Option Str
  structuredSteps : SField
  structuredWorkout : SField
  struct : SField
  distance : Option ℚ

/-! ## Keyword classifier (src/tp_cli/core/classify.py) -/

/-- `_normalized_text`: join title, description, coachComments and
userTags with spaces and lowercase. -/
def normalizedText (w : Workout) : Str :=
  lowerL (strOr w.title [] ++ sl " " ++ strOr w.description [] ++ sl " " ++
    strOr w.coachComments [] ++ sl " " ++ strOr w.userTags [])

/-- The rule scan of `_classify_by_keywords`: first rule with any
matching keyword wins, otherwise "other". -/
def keywordScan (text : Str) : List (Str × List Str) → Str
  | [] => sl "other"
  | (ty, kws) :: rest =>
    if kws.any (fun k => containsL k text) then ty else keywordScan text rest

/-- `_classify_by_keywords` from classify.py. -/
def classifyByKeywords (w : Workout) (rules : List (Str × List Str)) : Str :=
  keywordScan (normalizedText w) rules

/-- `TYPE_RULES` from constants.py. -/
def TYPE_RULES : List (Str × List Str) :=
  [(sl "race", [sl "race", sl "competition", sl "event", sl "marathon",
      sl "triathlon", sl "70.3"]),
   (sl "test", [sl "test", sl "ftp test", sl "time trial", sl "benchmark",
      sl "ramp test"]),
   (sl "vo2", [sl "vo2", sl "vo2max", sl "zone 5", sl "z5"]),
   (sl "sprint", [sl "sprint", sl "anaerobic", sl "zone 6", sl "z6",
      sl "neuromuscular", sl "20/40"]),
   (sl "lt2", [sl "lt2", sl "lactate threshold", sl "threshold", sl "zone 4",
      sl "z4", sl "ftp", sl "over under", sl "sweetspot", sl "sst"]),
   (sl "lt1", [sl "lt1", sl "aerobic threshold", sl "tempo", sl "zone 3",
      sl "z3", sl "sweet spot"]),
   (sl "long", [sl "long run", sl "long ride", sl "long swim",
      sl "endurance long", sl "weekend long"]),
   (sl "strength", [sl "strength", sl "gym", sl "weights", sl "dryland", sl "core"]),
   (sl "easy", [sl "easy", sl "recovery", sl "endurance", sl "zone 1",
      sl "zone 2", sl "z1", sl "z2", sl "base z2", sl "warm down", sl "spin",
      sl "technique"])]

/-- `_PRIORITY_KEYWORD_TYPES` from classify.py. -/
def priorityKeywordTypes : List Str :=
  [sl "race", sl "test", sl "strength", sl "long", sl "sprint"]

/-! ## Structure extraction and structural classifier (classify.py) -/

/-- `_normalize_blocks`: a list of dicts none of which has a `steps`
key is wrapped into a single synthetic step block. -/
def normalizeBlocks : Option (List JDict) → List JDict
  | none => []
  | some blocks =>
    if blocks.isEmpty then []
    else if blocks.all (fun b => b.steps?.isNone) then
      [JDict.mk (some (sl "step")) (some ⟨some 1, some (sl "repetition")⟩)
        (some blocks) none none]
    else blocks

/-- The `parsed.get("structure") or parsed.get("steps")` idiom:
`None` and the empty list are falsy. -/
def orFieldJ : Option (List JDict) → Option (List JDict) → Option (List JDict)
  | none, y => y
  | some [], y => y
  | some (b :: t), _ => some (b :: t)

/-- One iteration of the `_extract_structure` key loop: returns the
normalized blocks (if non-empty) and the possibly updated metric. -/
def tryKey (metric : Str) : SField → Option (List JDict) × Str
  | .absent => (none, metric)
  | .badStr => (none, metric)
  | .pother => (none, metric)
  | .plist items =>
    let n := normalizeBlocks (some items)
    (if n.isEmpty then none else some n, metric)
  | .pdict m st sp =>
    let metric2 := strOr m metric
    let n := normalizeBlocks (orFieldJ st sp)
    (if n.isEmpty then none else some n, metric2)

/-- The key loop of `_extract_structure`. -/
def extractLoop : Str → List SField → List JDict × Str
  | metric, [] => ([], metric)
  | metric, f :: rest =>
    match tryKey metric f with
    | (some blocks, m) => (blocks, m)
    | (none, m) => extractLoop m rest

/-- `_extract_structure` from classify.py. -/
def extractStructure (w : Workout) : List JDict × Str :=
  extractLoop (strOr w.primaryIntensityMetric [])
    [w.structuredSteps, w.structuredWorkout, w.struct]

/-- `_as_percent` from classify.py. -/
def asPercent : Option ℚ → ℚ
  | none => 0
  | some v => if v ≤ 0 then 0 else if v ≤ 2 then v * 100 else v

/-- `_step_intensity_pct` from classify.py. -/
def stepIntensityPct (s : JDict) : ℚ :=
  match s.targets? with
  | none => 0
  | some [] => 0
  | some (t :: _) =>
    let minPct := asPercent t.minValue
    let maxPct := asPercent t.maxValue
    if 0 < minPct ∧ 0 < maxPct then (minPct + maxPct) / 2
    else if 0 < minPct then minPct
    else if 0 < maxPct then maxPct
    else asPercent t.value

/-- `_length_to_seconds` from classify.py. -/
def lengthToSeconds (l : Length) : ℚ :=
  let unit := lowerL (strOr l.unit [])
  let value := numOr l.value 0
  if value ≤ 0 then 0
  else if unit = sl "second" then value
  else if unit = sl "minute" then value * 60
  else if unit = sl "hour" then value * 3600
  else if unit = sl "meter" then value / 4
  else if unit = sl "kilometer" then value * 250
  else 0

/-- The repetition count of a block in `_classify_from_structure`. -/
def blockRepCount (b : JDict) : ℤ :=
  if normToken (strOr b.type? (sl "step")) = sl "repetition" then
    ratTrunc (numOr (b.length?.getD emptyLength).value 1)
  else 1

/-- The per-step load in `_classify_from_structure`: length seconds
weighted by the repetition count, replaced by a synthetic 30 seconds
when non-positive while the step has a positive intensity. -/
def stepLoad (rep_count : ℤ) (s : JDict) : ℚ :=
  let load := lengthToSeconds (s.length?.getD emptyLength) * ((max rep_count 1 : ℤ) : ℚ)
  if load ≤ 0 ∧ 0 < stepIntensityPct s then 30 else load

/-- Per-zone accumulated loads (seconds). -/
structure Zones where
  easy : ℚ
  lt1 : ℚ
  lt2 : ℚ
  vo2 : ℚ
deriving DecidableEq

/-- The all-zero zone map. -/
def Zones.zero : Zones := ⟨0, 0, 0, 0⟩

/-- `zones[zone] += q` for a zone label. -/
def Zones.bump (z : Zones) (name : Str) (q : ℚ) : Zones :=
  if name = sl "easy" then ⟨z.easy + q, z.lt1, z.lt2, z.vo2⟩
  else if name = sl "lt1" then ⟨z.easy, z.lt1 + q, z.lt2, z.vo2⟩
  else if name = sl "lt2" then ⟨z.easy, z.lt1, z.lt2 + q, z.vo2⟩
  else if name = sl "vo2" then ⟨z.easy, z.lt1, z.lt2, z.vo2 + q⟩
  else z

/-- Per-zone step counts. -/
structure ZCounts where
  easy : ℕ
  lt1 : ℕ
  lt2 : ℕ
  vo2 : ℕ
deriving DecidableEq

/-- The all-zero count map. -/
def ZCounts.zero : ZCounts := ⟨0, 0, 0, 0⟩

/-- `zone_counts[zone] += 1` for a zone label. -/
def ZCounts.bump (z : ZCounts) (name : Str) : ZCounts :=
  if name = sl "easy" then ⟨z.easy + 1, z.lt1, z.lt2, z.vo2⟩
  else if name = sl "lt1" then ⟨z.easy, z.lt1 + 1, z.lt2, z.vo2⟩
  else if name = sl "lt2" then ⟨z.easy, z.lt1, z.lt2 + 1, z.vo2⟩
  else if name = sl "vo2" then ⟨z.easy, z.lt1, z.lt2, z.vo2 + 1⟩
  else z

/-- The accumulator of `_classify_from_structure`. -/
structure CState where
  loads : Zones
  counts : ZCounts
  hasIntensity : Bool
  maxPct : ℚ

/-- One step of the `_classify_from_structure` inner loop. -/
def stepUpdate (block_type : Str) (rep_count : ℤ) (st : CState) (s : JDict) : CState :=
  let pct := stepIntensityPct s
  let zone := classify_zone pct block_type (strOr s.intensityClass? (sl "active"))
    defaultZoneThresholds
  let load := stepLoad rep_count s
  CState.mk (st.loads.bump zone load)
    (if 0 < pct then st.counts.bump zone else st.counts)
    (st.hasIntensity || decide (0 < pct))
    (if 0 < pct then max st.maxPct pct else st.maxPct)

/-- The `_classify_from_structure` inner loop over a block's steps. -/
def stepScan (block_type : Str) (rep_count : ℤ) : CState → List JDict → CState
  | st, [] => st
  | st, s :: rest => stepScan block_type rep_count (stepUpdate block_type rep_count st s) rest

/-- The `_classify_from_structure` outer loop over blocks. -/
def blockScan : CState → List JDict → CState
  | st, [] => st
  | st, b :: rest =>
    let block_type := strOr b.type? (sl "step")
    blockScan (stepScan block_type (blockRepCount b) st (b.steps?.getD [])) rest

/-- `_classify_from_structure` from classify.py. -/
def classifyFromStructure (w : Workout) : Option Str :=
  let blocks := (extractStructure w).1
  if blocks.isEmpty then none
  else
    let st := blockScan (CState.mk Zones.zero ZCounts.zero false 0) blocks
    if st.hasIntensity = false then none
    else
      some (
        if 180 ≤ st.loads.vo2 ∨ (2 ≤ st.counts.vo2 ∧ 105 < st.maxPct) then sl "vo2"
        else if 180 ≤ st.loads.lt2 + st.loads.vo2 ∨ 2 ≤ st.counts.lt2 + st.counts.vo2 then
          sl "lt2"
        else if 300 ≤ st.loads.lt1 ∨ 2 ≤ st.counts.lt1 then sl "lt1"
        else sl "easy")

/-- `_classify_with_source` from classify.py. The Python truthiness
test `if structure_label:` is modelled by the empty-string check. -/
def classifyWithSource (w : Workout) (rules : List (Str × List Str)) : Str × Str :=
  let keywordLabel := classifyByKeywords w rules
  if keywordLabel ∈ priorityKeywordTypes then (keywordLabel, sl "keyword")
  else
    match classifyFromStructure w with
    | some l => if l = [] then (keywordLabel, sl "keyword") else (l, sl "structure")
    | none => (keywordLabel, sl "keyword")

/-- `classify_workout` from classify.py. -/
def classify_workout (w : Workout) (rules : List (Str × List Str)) : Str :=
  (classifyWithSource w rules).1

/-- The keyword scan is the label of the first rule with any matching
keyword, and "other" when no rule matches. -/
theorem keywordScan_eq_find (text : Str) (rules : List (Str × List Str)) :
    keywordScan text rules =
      (match rules.find? (fun r => r.2.any (fun k => containsL k text)) with
       | some r => r.1
       | none => sl "other") := by
  induction rules with
  | nil => rfl
  | cons r rest ih =>
    obtain ⟨ty, kws⟩ := r
    by_cases h : kws.any (fun k => containsL k text) = true
    · simp [keywordScan, List.find?, h]
    · simp only [keywordScan, if_neg h]
      simp only [List.find?, Bool.not_eq_true] at h ⊢
      rw [h]
      exact ih

/-- The structural signal only ever produces one of the four zone
labels. -/
theorem classifyFromStructure_labels (w : Workout) (l : Str)
    (h : classifyFromStructure w = some l) :
    l = sl "vo2" ∨ l = sl "lt2" ∨ l = sl "lt1" ∨ l = sl "easy" := by
  simp only [classifyFromStructure] at h
  split_ifs at h <;> simp_all

/-- C3: the keyword signal is the first matching rule in list order
(else "other"); a priority keyword label (race, test, strength, long,
sprint) overrides the structural signal outright; otherwise the
structural label is used when produced, and the keyword label when
not; and any workout whose normalized text contains "race" gets
keyword label race under the default rules. -/
theorem C3_classification_combination :
    (∀ (w : Workout) (rules : List (Str × List Str)),
      classifyByKeywords w rules =
        (match rules.find? (fun r => r.2.any (fun k => containsL k (normalizedText w))) with
         | some r => r.1
         | none => sl "other"))
    ∧ (∀ (w : Workout) (rules : List (Str × List Str)),
      classifyByKeywords w rules ∈ priorityKeywordTypes →
      classifyWithSource w rules = (classifyByKeywords w rules, sl "keyword"))
    ∧ (∀ (w : Workout) (rules : List (Str × List Str)) (l : Str),
      classifyByKeywords w rules ∉ priorityKeywordTypes →
      classifyFromStructure w = some l →
      classifyWithSource w rules = (l, sl "structure"))
    ∧ (∀ (w : Workout) (rules : List (Str × List Str)),
      classifyByKeywords w rules ∉ priorityKeywordTypes →
      classifyFromStructure w = none →
      classifyWithSource w rules = (classifyByKeywords w rules, sl "keyword"))
    ∧ (∀ w : Workout, containsL (sl "race") (normalizedText w) = true →
      classifyByKeywords w TYPE_RULES = sl "race") := by
  refine ⟨?_, ?_, ?_, ?_, ?_⟩
  · intro w rules
    exact keywordScan_eq_find (normalizedText w) rules
  · intro w rules h
    simp [classifyWithSource, h]
  · intro w rules l hk hs
    have hl := classifyFromStructure_labels w l hs
    have hne : ¬l = [] := by
      rcases hl with h | h | h | h <;> subst h <;> decide
    simp [classifyWithSource, hk, hs, hne]
  · intro w rules hk hs
    simp [classifyWithSource, hk, hs]
  · intro w h
    simp [classifyByKeywords, TYPE_RULES, keywordScan, h]

/-- Witness for C3: a workout titled "Race Day" has keyword label race,
which is in the priority set and overrides everything. -/
theorem C3_classification_combination_witness :
    (classifyByKeywords
        (Workout.mk (some (sl "Race Day")) none none none none .absent .absent .absent none)
        TYPE_RULES ∈ priorityKeywordTypes) ∧
    classifyWithSource
        (Workout.mk (some (sl "Race Day")) none none none none .absent .absent .absent none)
        TYPE_RULES =
      (classifyByKeywords
        (Workout.mk (some (sl "Race Day")) none none none none .absent .absent .absent none)
        TYPE_RULES, sl "keyword") := by
  refine ⟨by decide, ?_⟩
  exact C3_classification_combination.2.1
    (Workout.mk (some (sl "Race Day")) none none none none .absent .absent .absent none)
    TYPE_RULES (by decide)

/-- A step with no length and a single 103% minValue target, used to
exhibit the synthetic-load behaviour. -/
def zeroLenStep : JDict := JDict.mk none none none (some [⟨some 103, none, none⟩]) none

/-- A workout whose structure is one step block holding `n` copies of
`zeroLenStep`. -/
def zeroLenWorkout (n : ℕ) : Workout :=
  Workout.mk none none none none none .absent .absent
    (.pdict (some (sl "percentOfThresholdPace"))
      (some [JDict.mk (some (sl "step")) none (some (List.replicate n zeroLenStep)) none none])
      none)
    none

/-- Evaluation of one inner-loop update on `zeroLenStep`: the step is
classified vo2 and credited exactly 30 seconds of load. -/
theorem stepUpdate_zeroLen (st : CState) :
    stepUpdate (sl "step") 1 st zeroLenStep =
      CState.mk ⟨st.loads.easy, st.loads.lt1, st.loads.lt2, st.loads.vo2 + 30⟩
        ⟨st.counts.easy, st.counts.lt1, st.counts.lt2, st.counts.vo2 + 1⟩
        true (max st.maxPct 103) := by
  have hp : stepIntensityPct zeroLenStep = 103 := by
    simp [stepIntensityPct, zeroLenStep, JDict.targets?, asPercent]
    norm_num
  have hz : classify_zone 103 (sl "step") (sl "active") defaultZoneThresholds = sl "vo2" := by
    unfold classify_zone
    rw [if_neg (by decide), if_neg (by decide), if_neg (by norm_num [defaultZoneThresholds]),
      if_neg (by norm_num [defaultZoneThresholds]), if_neg (by norm_num [defaultZoneThresholds])]
  have hic : strOr (JDict.intensityClass? zeroLenStep) (sl "active") = sl "active" := rfl
  have hlen : lengthToSeconds (zeroLenStep.length?.getD emptyLength) = 0 := by
    simp [zeroLenStep, JDict.length?, emptyLength, lengthToSeconds, numOr, strOr]
  have hl : stepLoad 1 zeroLenStep = 30 := by
    simp only [stepLoad, hlen, hp]
    norm_num
  have hdec : decide ((0 : ℚ) < 103) = true := decide_eq_true (by norm_num)
  have b1 : ((sl "vo2" : Str) = sl "easy") = False := by decide
  have b2 : ((sl "vo2" : Str) = sl "lt1") = False := by decide
  have b3 : ((sl "vo2" : Str) = sl "lt2") = False := by decide
  simp [stepUpdate, hp, hz, hic, hl, Zones.bump, ZCounts.bump, b1, b2, b3, hdec,
    Bool.or_true]

/-- C10: a step with positive intensity whose length converts to zero
or fewer seconds is credited a synthetic load of exactly 30 seconds,
independent of the enclosing repetition count; a missing/non-positive
value or an unknown unit converts to zero seconds; and such
zero-duration steps can reach the 180 s vo2 load threshold and change
the classification (six copies classify as vo2, one copy as easy). -/
theorem C10_synthetic_load :
    (∀ (s : JDict) (rep_count : ℤ),
      lengthToSeconds (s.length?.getD emptyLength) ≤ 0 →
      0 < stepIntensityPct s →
      stepLoad rep_count s = 30)
    ∧ (∀ l : Length,
      numOr l.value 0 ≤ 0 ∨
        lowerL (strOr l.unit []) ∉
          [sl "second", sl "minute", sl "hour", sl "meter", sl "kilometer"] →
      lengthToSeconds l = 0)
    ∧ (classifyFromStructure (zeroLenWorkout 6) = some (sl "vo2")
       ∧ classifyFromStructure (zeroLenWorkout 1) = some (sl "easy")) := by
  have hextract : ∀ n : ℕ, (extractStructure (zeroLenWorkout n)).1 =
      [JDict.mk (some (sl "step")) none (some (List.replicate n zeroLenStep)) none none] := by
    intro n
    cases n <;>
      simp [extractStructure, zeroLenWorkout, extractLoop, tryKey, normalizeBlocks, orFieldJ,
        strOr, List.replicate, zeroLenStep, JDict.steps?]
  have hne : ((sl "step" : Str) = []) = False := by decide
  have hblock : ∀ (n : ℕ) (st : CState),
      blockScan st [JDict.mk (some (sl "step")) none (some (List.replicate n zeroLenStep)) none none] =
        stepScan (sl "step") 1 st (List.replicate n zeroLenStep) := by
    intro n st
    simp only [blockScan, JDict.type?, JDict.steps?, strOr, hne, Option.getD]
    have hrep : blockRepCount
        (JDict.mk (some (sl "step")) none (some (List.replicate n zeroLenStep)) none none) = 1 := by
      unfold blockRepCount
      have ht : (JDict.mk (some (sl "step")) none (some (List.replicate n zeroLenStep))
          none none).type? = some (sl "step") := rfl
      rw [ht]
      rw [if_neg (by decide)]
    rw [hrep]
    simp
  have hs6 : blockScan (CState.mk Zones.zero ZCounts.zero false 0)
      [JDict.mk (some (sl "step")) none (some (List.replicate 6 zeroLenStep)) none none] =
      CState.mk ⟨0, 0, 0, 180⟩ ⟨0, 0, 0, 6⟩ true 103 := by
    rw [hblock]
    simp only [List.replicate, stepScan, stepUpdate_zeroLen, Zones.zero, ZCounts.zero]
    norm_num
  have hs1 : blockScan (CState.mk Zones.zero ZCounts.zero false 0)
      [JDict.mk (some (sl "step")) none (some (List.replicate 1 zeroLenStep)) none none] =
      CState.mk ⟨0, 0, 0, 30⟩ ⟨0, 0, 0, 1⟩ true 103 := by
    rw [hblock]
    simp only [List.replicate, stepScan, stepUpdate_zeroLen, Zones.zero, ZCounts.zero]
    norm_num
  refine ⟨?_, ?_, ?_, ?_⟩
  · intro s rep_count hlen hpct
    unfold stepLoad
    have hmax : (0 : ℚ) ≤ ((max rep_count 1 : ℤ) : ℚ) := by
      have h1 : (1 : ℤ) ≤ max rep_count 1 := le_max_right rep_count 1
      exact_mod_cast le_trans (by norm_num) h1
    have hload : lengthToSeconds (s.length?.getD emptyLength) * ((max rep_count 1 : ℤ) : ℚ) ≤ 0 :=
      mul_nonpos_of_nonpos_of_nonneg hlen hmax
    rw [if_pos ⟨hload, hpct⟩]
  · intro l h
    rcases h with h | h
    · simp only [lengthToSeconds]
      rw [if_pos h]
    · simp only [lengthToSeconds]
      simp only [List.mem_cons, not_or] at h
      split_ifs <;> simp_all
  · simp only [classifyFromStructure, hextract 6, hs6, List.isEmpty_cons]
    norm_num
  · simp only [classifyFromStructure, hextract 1, hs1, List.isEmpty_cons]
    norm_num

/-- Witness for C10 at a concrete zero-length step and repetition
count 7. -/
theorem C10_synthetic_load_witness :
    (lengthToSeconds (zeroLenStep.length?.getD emptyLength) ≤ 0 ∧
      0 < stepIntensityPct zeroLenStep) ∧
    stepLoad 7 zeroLenStep = 30 := by
  have hlen : lengthToSeconds (zeroLenStep.length?.getD emptyLength) = 0 := by
    simp [zeroLenStep, JDict.length?, emptyLength, lengthToSeconds, numOr, strOr]
  have hp : stepIntensityPct zeroLenStep = 103 := by
    simp [stepIntensityPct, zeroLenStep, JDict.targets?, asPercent]
    norm_num
  refine ⟨⟨by rw [hlen], by rw [hp]; norm_num⟩, ?_⟩
  exact C10_synthetic_load.1 zeroLenStep 7 (by rw [hlen]) (by rw [hp]; norm_num)

/-! ## Zone-distance decomposer (src/tp_cli/core/analysis.py) -/

/-- The three percent-based metrics accepted by `parse_workout_zones`. -/
def percentMetrics : List Str :=
  [sl "percentOfThresholdPace", sl "percentOfFtp", sl "percentOfThresholdHr"]

/-- `_step_distance_raw` from analysis.py: raw distance contribution
and intensity percentage of one step. -/
def stepDistanceRaw (s : JDict) (threshold_speed : ℚ) : ℚ × ℚ :=
  let length := s.length?.getD emptyLength
  let value := numOr length.value 0
  let target : Target :=
    match s.targets? with
    | none => ⟨none, none, none⟩
    | some [] => ⟨none, none, none⟩
    | some (t :: _) => t
  let min_value := numOr target.minValue 0
  let max_value := numOr target.maxValue min_value
  let pct := if min_value < max_value then (min_value + max_value) / 2 else min_value
  if length.unit = some (sl "meter") then (value, pct)
  else if length.unit = some (sl "second") then
    (value * (if 0 < pct then threshold_speed * (pct / 100) else threshold_speed * (7 / 10)),
      pct)
  else (0, pct)

/-- Sum of the four zone buckets. -/
def Zones.total (z : Zones) : ℚ := z.easy + z.lt1 + z.lt2 + z.vo2

/-- Rescaling of every zone bucket by a constant. -/
def Zones.scale (z : Zones) (c : ℚ) : Zones := ⟨z.easy * c, z.lt1 * c, z.lt2 * c, z.vo2 * c⟩

/-- The map assigning an entire distance to easy. -/
def easyOnly (d : ℚ) : Zones := ⟨d, 0, 0, 0⟩

/-- The `parse_workout_zones` inner loop over a block's steps. -/
def pwzStepScan (block_type : Str) (rep_count : ℤ) (threshold_speed : ℚ)
    (thresholds : Thresholds) : Zones → List JDict → Zones
  | z, [] => z
  | z, s :: rest =>
    let rp := stepDistanceRaw s threshold_speed
    let zone := classify_zone rp.2 block_type (s.intensityClass?.getD (sl "active")) thresholds
    pwzStepScan block_type rep_count threshold_speed thresholds
      (z.bump zone (rp.1 * (rep_count : ℚ))) rest

/-- The `parse_workout_zones` outer loop over blocks. -/
def pwzBlockScan (threshold_speed : ℚ) (thresholds : Thresholds) : Zones → List JDict → Zones
  | z, [] => z
  | z, b :: rest =>
    let block_type := b.type?.getD (sl "step")
    let rep_count : ℤ :=
      if block_type = sl "repetition" then ratTrunc ((b.length?.getD emptyLength).value.getD 1)
      else 1
    pwzBlockScan threshold_speed thresholds
      (pwzStepScan block_type rep_count threshold_speed thresholds z (b.steps?.getD [])) rest

/-- `parse_workout_zones` from analysis.py. `none` models the inputs
on which the Python code raises (a structure field holding a non-empty
list or a truthy non-dict scalar, on which `.get` raises
AttributeError); every other input returns a zone map and a total. -/
def parse_workout_zones (w : Workout) (threshold_speed : ℚ) (thresholds : Thresholds) :
    Option (Zones × ℚ) :=
  let distance := numOr w.distance 0
  match w.struct with
  | .absent => some (easyOnly distance, distance)
  | .badStr => some (easyOnly distance, distance)
  | .plist [] => some (easyOnly distance, distance)
  | .plist (_ :: _) => none
  | .pother => none
  | .pdict metric structureF _ =>
    if metric.getD [] ∉ percentMetrics then some (easyOnly distance, distance)
    else
      let zones := pwzBlockScan threshold_speed thresholds Zones.zero (structureF.getD [])
      if 0 < zones.total ∧ 0 < distance then
        some (zones.scale (distance / zones.total), distance)
      else if 0 < distance ∧ zones.total = 0 then
        some (easyOnly distance, distance)
      else some (zones, zones.total)

/-- Scaling multiplies the total. -/
theorem Zones.total_scale (z : Zones) (c : ℚ) : (z.scale c).total = z.total * c := by
  simp [Zones.total, Zones.scale]
  ring

/-- C2: with a usable structure (dict with a percent-based metric)
whose raw zone total and recorded distance are both positive, every
bucket is rescaled by distance/raw_total and the returned buckets sum
to the recorded distance, which is also the returned total; an
absent or unparsable structure, or one with a non-percent metric,
assigns the entire recorded distance to easy; a zero raw total with a
positive recorded distance likewise assigns it all to easy. -/
theorem C2_parse_workout_zones :
    (∀ (w : Workout) (ts : ℚ) (th : Thresholds) (metric : Option Str)
        (structureF stepsF : Option (List JDict)),
      w.struct = .pdict metric structureF stepsF →
      metric.getD [] ∈ percentMetrics →
      0 < (pwzBlockScan ts th Zones.zero (structureF.getD [])).total →
      0 < numOr w.distance 0 →
      parse_workout_zones w ts th =
        some ((pwzBlockScan ts th Zones.zero (structureF.getD [])).scale
            (numOr w.distance 0 / (pwzBlockScan ts th Zones.zero (structureF.getD [])).total),
          numOr w.distance 0) ∧
      ((pwzBlockScan ts th Zones.zero (structureF.getD [])).scale
          (numOr w.distance 0 / (pwzBlockScan ts th Zones.zero (structureF.getD [])).total)).total =
        numOr w.distance 0)
    ∧ (∀ (w : Workout) (ts : ℚ) (th : Thresholds),
      w.struct = .absent ∨ w.struct = .badStr →
      parse_workout_zones w ts th = some (easyOnly (numOr w.distance 0), numOr w.distance 0))
    ∧ (∀ (w : Workout) (ts : ℚ) (th : Thresholds) (metric : Option Str)
        (structureF stepsF : Option (List JDict)),
      w.struct = .pdict metric structureF stepsF →
      metric.getD [] ∉ percentMetrics →
      parse_workout_zones w ts th = some (easyOnly (numOr w.distance 0), numOr w.distance 0))
    ∧ (∀ (w : Workout) (ts : ℚ) (th : Thresholds) (metric : Option Str)
        (structureF stepsF : Option (List JDict)),
      w.struct = .pdict metric structureF stepsF →
      metric.getD [] ∈ percentMetrics →
      (pwzBlockScan ts th Zones.zero (structureF.getD [])).total = 0 →
      0 < numOr w.distance 0 →
      parse_workout_zones w ts th = some (easyOnly (numOr w.distance 0), numOr w.distance 0)) := by
  refine ⟨?_, ?_, ?_, ?_⟩
  · intro w ts th metric structureF stepsF hs hm htot hd
    constructor
    · simp only [parse_workout_zones, hs]
      rw [if_neg (by simp [hm])]
      rw [if_pos ⟨htot, hd⟩]
    · rw [Zones.total_scale]
      field_simp
  · intro w ts th hs
    rcases hs with hs | hs <;> simp [parse_workout_zones, hs]
  · intro w ts th metric structureF stepsF hs hm
    simp only [parse_workout_zones, hs]
    rw [if_pos hm]
  · intro w ts th metric structureF stepsF hs hm htot hd
    simp only [parse_workout_zones, hs]
    rw [if_neg (by simp [hm])]
    rw [if_neg (by simp [htot]), if_pos ⟨hd, htot⟩]

/-- A 100 m step at 80% used by the C2 witness. -/
def meterStep : JDict :=
  JDict.mk none (some ⟨some 100, some (sl "meter")⟩) none (some [⟨some 80, none, none⟩]) none

/-- A workout with a 100 m structure and a recorded distance of 250 m,
used by the C2 witness. -/
def meterWorkout : Workout :=
  Workout.mk none none none none none .absent .absent
    (.pdict (some (sl "percentOfFtp"))
      (some [JDict.mk none none (some [meterStep]) none none]) none)
    (some 250)

/-- Witness for C2: the 100 m raw structure of `meterWorkout` is
rescaled to its 250 m recorded distance and the buckets sum to 250. -/
theorem C2_parse_workout_zones_witness :
    (meterWorkout.struct = .pdict (some (sl "percentOfFtp"))
        (some [JDict.mk none none (some [meterStep]) none none]) none ∧
      (some (sl "percentOfFtp")).getD [] ∈ percentMetrics ∧
      0 < (pwzBlockScan 4 defaultZoneThresholds Zones.zero
        ((some [JDict.mk none none (some [meterStep]) none none]).getD [])).total ∧
      0 < numOr meterWorkout.distance 0) ∧
    parse_workout_zones meterWorkout 4 defaultZoneThresholds =
      some ((pwzBlockScan 4 defaultZoneThresholds Zones.zero
          ((some [JDict.mk none none (some [meterStep]) none none]).getD [])).scale
          (numOr meterWorkout.distance 0 /
            (pwzBlockScan 4 defaultZoneThresholds Zones.zero
              ((some [JDict.mk none none (some [meterStep]) none none]).getD [])).total),
        numOr meterWorkout.distance 0) := by
  have hz : pwzBlockScan 4 defaultZoneThresholds Zones.zero
      [JDict.mk none none (some [meterStep]) none none] = ⟨0, 100, 0, 0⟩ := by
    have hraw : stepDistanceRaw meterStep 4 = (100, 80) := by
      simp [stepDistanceRaw, meterStep, JDict.length?, JDict.targets?, emptyLength, numOr]
    have hcz : classify_zone 80 (sl "step") (sl "active") defaultZoneThresholds = sl "lt1" := by
      unfold classify_zone
      rw [if_neg (by decide), if_neg (by decide), if_neg (by norm_num [defaultZoneThresholds]),
        if_pos (by norm_num [defaultZoneThresholds])]
    have h1 : (JDict.steps? (JDict.mk none none (some [meterStep]) none none)).getD [] =
        [meterStep] := rfl
    have h2 : (JDict.type? (JDict.mk none none (some [meterStep]) none none)).getD (sl "step") =
        sl "step" := rfl
    have hicm : (JDict.intensityClass? meterStep).getD (sl "active") = sl "active" := rfl
    have bstep : ((sl "step" : Str) = sl "repetition") = False := by decide
    have b1 : ((sl "lt1" : Str) = sl "easy") = False := by decide
    have b2 : ((sl "lt1" : Str) = sl "lt1") = True := by decide
    simp only [pwzBlockScan, h1, h2, bstep, if_false]
    simp only [pwzStepScan, hraw, hicm, hcz, Zones.bump, Zones.zero, b1, b2, if_false, if_true]
    norm_num
  have htot : (0 : ℚ) < (pwzBlockScan 4 defaultZoneThresholds Zones.zero
      [JDict.mk none none (some [meterStep]) none none]).total := by
    rw [hz]
    norm_num [Zones.total]
  refine ⟨⟨rfl, by decide, htot, by norm_num [meterWorkout, numOr]⟩, ?_⟩
  exact (C2_parse_workout_zones.1 meterWorkout 4 defaultZoneThresholds
    (some (sl "percentOfFtp")) (some [JDict.mk none none (some [meterStep]) none none]) none
    rfl (by decide) htot (by norm_num [meterWorkout, numOr])).1

/-! ## Length/target parsing (src/tp_cli/utils/parsing.py) -/

/-- The exception kinds of the Python-level model. `parseError`
represents the ParseError class the specification names; the code
under src/ defines no such class. -/
inductive PyErr where
  | valueError
  | parseError
  | keyError
deriving DecidableEq

/-- Python `int(s)` on a string: optional sign then a non-empty digit
run, with surrounding whitespace stripped (underscored and non-decimal
literals are outside the modelled domain). `none` models ValueError. -/
def strToInt (s : Str) : Option ℤ :=
  let t := trimL s
  match t with
  | '-' :: rest =>
    if rest ≠ [] ∧ rest.all Char.isDigit then some (-(digitsVal rest : ℤ)) else none
  | '+' :: rest =>
    if rest ≠ [] ∧ rest.all Char.isDigit then some (digitsVal rest) else none
  | _ => if t ≠ [] ∧ t.all Char.isDigit then some (digitsVal t) else none

/-- Python `float(s)` on a decimal literal (optional sign, integer
part, optional fractional part; exponent forms are outside the
modelled domain). `none` models ValueError. -/
def strToFloat (s : Str) : Option ℚ :=
  let t := trimL s
  let core := match t with
    | '-' :: r => r
    | '+' :: r => r
    | r => r
  let neg : Bool := match t with
    | '-' :: _ => true
    | _ => false
  let ip := core.takeWhile Char.isDigit
  let rest := core.dropWhile Char.isDigit
  let val? : Option ℚ :=
    match rest with
    | [] => if ip = [] then none else some (digitsVal ip)
    | '.' :: fp =>
      if fp.all Char.isDigit ∧ (ip ≠ [] ∨ fp ≠ []) then
        some ((digitsVal ip : ℚ) + (digitsVal fp : ℚ) / (10 : ℚ) ^ fp.length)
      else none
    | _ => none
  match val? with
  | none => none
  | some v => some (if neg then -v else v)

/-- `parse_length` from parsing.py. The error value records the Python
exception class actually raised. -/
def parse_length (value : Str) : Except PyErr (ℤ × Str) :=
  let raw := trimL value
  if endsWithL (sl "km") raw then
    match strToFloat (raw.take (raw.length - 2)) with
    | some q => .ok (ratTrunc (q * 1000), sl "meter")
    | none => .error .valueError
  else if endsWithL (sl "m") raw then
    match strToFloat (raw.take (raw.length - 1)) with
    | some q => .ok (ratTrunc q, sl "meter")
    | none => .error .valueError
  else
    match splitOnCharL ':' raw with
    | [a, b] =>
      match strToInt a, strToInt b with
      | some x, some y => .ok (x * 60 + y, sl "second")
      | _, _ => .error .valueError
    | [a, b, c] =>
      match strToInt a, strToInt b, strToInt c with
      | some x, some y, some z => .ok (x * 3600 + y * 60 + z, sl "second")
      | _, _, _ => .error .valueError
    | _ =>
      match strToInt raw with
      | some n => .ok (n, sl "second")
      | none => .error .valueError

/-- A prefix match of a longer pattern implies one of its head alone. -/
theorem startsWithL_head (x : Char) (xs s : Str)
    (h : startsWithL (x :: xs) s = true) : startsWithL [x] s = true := by
  cases s with
  | nil => simp [startsWithL] at h
  | cons b bs =>
    simp only [startsWithL, Bool.and_eq_true] at h ⊢
    simp [h.1, startsWithL]

/-- A string not ending in "m" does not end in "km" either. -/
theorem not_endsWith_km (s : Str) (h : endsWithL (sl "m") s = false) :
    endsWithL (sl "km") s = false := by
  by_contra hc
  rw [Bool.not_eq_false] at hc
  unfold endsWithL at hc h
  have hm : (sl "m").reverse = ['m'] := rfl
  have hkm : (sl "km").reverse = ['m', 'k'] := rfl
  rw [hm] at h
  rw [hkm] at hc
  have := startsWithL_head 'm' ['k'] s.reverse hc
  rw [h] at this
  exact Bool.false_ne_true this

/-- Decidable equality for `Except` results, used to evaluate the
parser on concrete strings. -/
instance {e a : Type} [DecidableEq e] [DecidableEq a] : DecidableEq (Except e a)
  | .error x, .error y =>
    if h : x = y then .isTrue (by rw [h]) else .isFalse (by simp [h])
  | .error _, .ok _ => .isFalse (by simp)
  | .ok _, .error _ => .isFalse (by simp)
  | .ok x, .ok y =>
    if h : x = y then .isTrue (by rw [h]) else .isFalse (by simp [h])

/-- Counterexample for C5: the malformed length string "abc" raises
ValueError, not the ParseError the claim names (no ParseError class
exists in the code). -/
theorem C5_counterexample :
    parse_length (sl "abc") = .error .valueError ∧
    Except.error (ε := PyErr) (α := ℤ × Str) PyErr.valueError ≠ .error .parseError := by
  constructor
  · decide
  · intro h
    simp at h

/-- C5 (amended): every malformed length string — one fitting none of
the forms trailing "m"/"km", MM:SS, HH:MM:SS, or bare integer — fails
with a ValueError, and ValueError is the only failure kind
`parse_length` raises. -/
theorem C5_parse_length_failures :
    (∀ s : Str,
      endsWithL (sl "m") (trimL s) = false →
      (splitOnCharL ':' (trimL s)).length ≠ 2 →
      (splitOnCharL ':' (trimL s)).length ≠ 3 →
      strToInt (trimL s) = none →
      parse_length s = .error .valueError)
    ∧ (∀ (s : Str) (e : PyErr), parse_length s = .error e → e = .valueError) := by
  constructor
  · intro s hm h2 h3 hint
    have hkm := not_endsWith_km (trimL s) hm
    simp only [parse_length, hkm, hm, Bool.false_eq_true, if_false]
    rcases hp : splitOnCharL ':' (trimL s) with _ | ⟨a, _ | ⟨b, _ | ⟨c, t⟩⟩⟩
    · simp [hint]
    · simp [hint]
    · rw [hp] at h2
      simp at h2
    · rcases t with _ | ⟨d, t2⟩
      · rw [hp] at h3
        simp at h3
      · simp [hint]
  · intro s e h
    simp only [parse_length] at h
    split_ifs at h
    · split at h <;> simp_all
    · split at h <;> simp_all
    · split at h
      · split at h <;> simp_all
      · split at h <;> simp_all
      · split at h <;> simp_all

/-- Witness for C5 (amended) at the malformed string "xy". -/
theorem C5_parse_length_failures_witness :
    (endsWithL (sl "m") (trimL (sl "xy")) = false ∧
      (splitOnCharL ':' (trimL (sl "xy"))).length ≠ 2 ∧
      (splitOnCharL ':' (trimL (sl "xy"))).length ≠ 3 ∧
      strToInt (trimL (sl "xy")) = none) ∧
    parse_length (sl "xy") = .error .valueError := by
  refine ⟨⟨by decide, by decide, by decide, by decide⟩, ?_⟩
  exact C5_parse_length_failures.1 (sl "xy") (by decide) (by decide) (by decide) (by decide)

/-! ## DSL compiler (src/tp_cli/utils/parsing.py) -/

/-- A simple-DSL step descriptor, with the keys the compiler and the
estimator read. Fields in order: type, duration, on, off, name,
on_name, off_name, target, on_target, off_target, reps. -/
structure DslStep where
  type_ : Str
  duration : Option Str
  on_ : Option Str
  off : Option Str
  name : Option Str
  on_name : Option Str
  off_name : Option Str
  target : Option Str
  on_target : Option Str
  off_target : Option Str
  reps : Option ℤ
deriving DecidableEq

/-- The leading digit run matched by `re.match` with a digits group. -/
def leadingDigits (s : Str) : Option ℕ :=
  let ds := s.takeWhile Char.isDigit
  if ds.isEmpty then none else some (digitsVal ds)

/-- `parse_target` from parsing.py: leading integer percent of a
target string, `None` on a falsy input or no match. -/
def parse_target : Option Str → Option ℤ
  | none => none
  | some v =>
    if v.isEmpty then none
    else (leadingDigits v).map (fun n => (n : ℤ))

/-- The `digits-digits` range matched by `re.match` in the interval
branch. -/
def matchRange (s : Str) : Option (ℕ × ℕ) :=
  let ds := s.takeWhile Char.isDigit
  if ds.isEmpty then none
  else
    match s.dropWhile Char.isDigit with
    | '-' :: r =>
      let ds2 := r.takeWhile Char.isDigit
      if ds2.isEmpty then none else some (digitsVal ds, digitsVal ds2)
    | _ => none

/-- A target dictionary of the compiled TrainingPeaks payload
(`maxValue = none` models an absent key). -/
structure TPTarget where
  minValue : Option ℤ
  maxValue : Option ℤ
deriving DecidableEq

/-- A length dictionary of the compiled payload. -/
structure TPLength where
  value : ℤ
  unit : Str
deriving DecidableEq

/-- A step of the compiled payload. -/
structure TPStep where
  name : Str
  length : TPLength
  targets : List TPTarget
  intensityClass : Str
  openDuration : Bool
deriving DecidableEq

/-- A block of the compiled payload. -/
structure TPBlock where
  type_ : Str
  length : TPLength
  steps : List TPStep
deriving DecidableEq

/-- The compiled structure payload. -/
structure TPStructure where
  primaryIntensityMetric : Str
  structure_ : List TPBlock
deriving DecidableEq

/-- The `[{"minValue": parse_target(t)}] if t else []` idiom. -/
def optTargets (t : Option Str) : List TPTarget :=
  match t with
  | none => []
  | some v => if v.isEmpty then [] else [⟨parse_target (some v), none⟩]

/-- The on-leg target list of an interval entry: a min-max range, a
single leading integer, or none. -/
def intervalOnTargets (t : Option Str) : List TPTarget :=
  match t with
  | none => []
  | some v =>
    if v.isEmpty then []
    else
      match matchRange v with
      | some (a, b) => [⟨some (a : ℤ), some (b : ℤ)⟩]
      | none =>
        match parse_target (some v) with
        | some p => [⟨some p, none⟩]
        | none => []

/-- The rampUp block flushing a warmup buffer. -/
def rampUpBlock (ws : List TPStep) : TPBlock := ⟨sl "rampUp", ⟨1, sl "repetition"⟩, ws⟩

/-- The repetition block compiled from an interval entry with parsed
on/off lengths. -/
def intervalBlock (step : DslStep) (onv : ℤ) (onu : Str) (offv : ℤ) (offu : Str) : TPBlock :=
  ⟨sl "repetition", ⟨step.reps.getD 1, sl "repetition"⟩,
    [⟨step.on_name.getD (step.name.getD []), ⟨onv, onu⟩, intervalOnTargets step.on_target,
      sl "active", false⟩,
     ⟨step.off_name.getD (sl "Easy"), ⟨offv, offu⟩, optTargets step.off_target,
      sl "rest", false⟩]⟩

/-- One iteration of the `simple_to_tp_structure` loop: threads the
emitted blocks and the pending warmup buffer. -/
def compileStep (acc : List TPBlock × List TPStep) (step : DslStep) :
    Except PyErr (List TPBlock × List TPStep) :=
  let blocks := acc.1
  let warmups := acc.2
  if step.type_ = sl "warmup" then
    match step.duration with
    | none => .error .keyError
    | some d =>
      match parse_length d with
      | .error e => .error e
      | .ok (dv, du) =>
        .ok (blocks, warmups ++ [⟨step.name.getD [], ⟨dv, du⟩, optTargets step.target,
          (if warmups.isEmpty then sl "warmUp" else sl "active"), false⟩])
  else if step.type_ = sl "interval" then
    match step.on_ with
    | none => .error .keyError
    | some onL =>
      match parse_length onL with
      | .error e => .error e
      | .ok (onv, onu) =>
        match step.off with
        | none => .error .keyError
        | some offL =>
          match parse_length offL with
          | .error e => .error e
          | .ok (offv, offu) =>
            let flushed := if warmups.isEmpty then blocks else blocks ++ [rampUpBlock warmups]
            .ok (flushed ++ [intervalBlock step onv onu offv offu], [])
  else
    let flushed := if warmups.isEmpty then blocks else blocks ++ [rampUpBlock warmups]
    if step.type_ = sl "cooldown" then
      match step.duration with
      | none => .error .keyError
      | some d =>
        match parse_length d with
        | .error e => .error e
        | .ok (dv, _) =>
          .ok (flushed ++ [⟨sl "step", ⟨1, sl "repetition"⟩,
            [⟨step.name.getD (sl "Cool Down"), ⟨dv, sl "second"⟩, optTargets step.target,
              sl "coolDown", false⟩]⟩], [])
    else if step.type_ = sl "steady" then
      match step.duration with
      | none => .error .keyError
      | some d =>
        match parse_length d with
        | .error e => .error e
        | .ok (dv, _) =>
          .ok (flushed ++ [⟨sl "step", ⟨1, sl "repetition"⟩,
            [⟨step.name.getD [], ⟨dv, sl "second"⟩, optTargets step.target,
              sl "active", false⟩]⟩], [])
    else .ok (flushed, [])

/-- The `simple_to_tp_structure` loop over all DSL steps. -/
def compileSteps : List DslStep → (List TPBlock × List TPStep) →
    Except PyErr (List TPBlock × List TPStep)
  | [], acc => .ok acc
  | s :: rest, acc =>
    match compileStep acc s with
    | .error e => .error e
    | .ok acc2 => compileSteps rest acc2

/-- `simple_to_tp_structure` from parsing.py. -/
def simple_to_tp_structure (steps : List DslStep) (intensity_metric : Str) :
    Except PyErr TPStructure :=
  match compileSteps steps ([], []) with
  | .error e => .error e
  | .ok (blocks, warmups) =>
    .ok ⟨intensity_metric,
      if warmups.isEmpty then blocks else blocks ++ [rampUpBlock warmups]⟩

/-- C7: an interval DSL entry compiles to exactly one repetition block
whose length value is the entry's reps (default 1) with unit
repetition, and whose children are exactly the on step (intensityClass
active) followed by the off step (intensityClass rest, name defaulting
to "Easy"). -/
theorem C7_interval_compilation :
    ∀ (e : DslStep) (m onS offS : Str) (onv offv : ℤ) (onu offu : Str),
      e.type_ = sl "interval" →
      e.on_ = some onS → parse_length onS = .ok (onv, onu) →
      e.off = some offS → parse_length offS = .ok (offv, offu) →
      simple_to_tp_structure [e] m = .ok ⟨m, [intervalBlock e onv onu offv offu]⟩ ∧
      (intervalBlock e onv onu offv offu).type_ = sl "repetition" ∧
      (intervalBlock e onv onu offv offu).length = ⟨e.reps.getD 1, sl "repetition"⟩ ∧
      (intervalBlock e onv onu offv offu).steps.length = 2 ∧
      (intervalBlock e onv onu offv offu).steps.map TPStep.intensityClass =
        [sl "active", sl "rest"] ∧
      ((intervalBlock e onv onu offv offu).steps.map TPStep.name).getLast? =
        some (e.off_name.getD (sl "Easy")) := by
  intro e m onS offS onv offv onu offu ht hon hpon hoff hpoff
  have hw : (e.type_ = sl "warmup") = False := by
    rw [ht]
    simp only [eq_iff_iff, iff_false]
    decide
  refine ⟨?_, rfl, rfl, rfl, rfl, rfl⟩
  have hiw : ((sl "interval" : Str) = sl "warmup") = False := by decide
  simp only [simple_to_tp_structure, compileSteps, compileStep, hw, ht, hon, hpon, hoff,
    hpoff, if_false, List.isEmpty_nil, if_true, List.nil_append]
  simp [hiw]

/-- The spec's concrete interval entry: reps 4, on 8:00, off 2:00. -/
def intervalEntry : DslStep :=
  DslStep.mk (sl "interval") none (some (sl "8:00")) (some (sl "2:00")) none none none
    none none none (some 4)

/-- Witness for C7 at the concrete entry reps 4, on 8:00, off 2:00. -/
theorem C7_interval_compilation_witness :
    (intervalEntry.type_ = sl "interval" ∧
      intervalEntry.on_ = some (sl "8:00") ∧
      parse_length (sl "8:00") = .ok (480, sl "second") ∧
      intervalEntry.off = some (sl "2:00") ∧
      parse_length (sl "2:00") = .ok (120, sl "second")) ∧
    simple_to_tp_structure [intervalEntry] (sl "percentOfThresholdPace") =
      .ok ⟨sl "percentOfThresholdPace",
        [intervalBlock intervalEntry 480 (sl "second") 120 (sl "second")]⟩ ∧
    (intervalBlock intervalEntry 480 (sl "second") 120 (sl "second")).length =
      ⟨4, sl "repetition"⟩ ∧
    (intervalBlock intervalEntry 480 (sl "second") 120 (sl "second")).steps.length = 2 := by
  have h := C7_interval_compilation intervalEntry (sl "percentOfThresholdPace")
    (sl "8:00") (sl "2:00") 480 120 (sl "second") (sl "second")
    rfl rfl (by decide) rfl (by decide)
  exact ⟨⟨rfl, rfl, by decide, rfl, by decide⟩, h.1, by decide, h.2.2.2.1⟩

/-! ## Duration/distance estimator (src/tp_cli/core/upload.py) -/

/-- `_pct_to_speed` from upload.py: midpoint of a range, a single
leading integer, or the 72% default. -/
def pctToSpeed (target : Option Str) (threshold_speed : ℚ) : ℚ :=
  match target with
  | none => threshold_speed * (72 / 100)
  | some s =>
    if s.isEmpty then threshold_speed * (72 / 100)
    else
      match matchRange s with
      | some (a, b) => threshold_speed * ((((a : ℚ) + (b : ℚ)) / 2) / 100)
      | none =>
        match leadingDigits s with
        | some n => threshold_speed * ((n : ℚ) / 100)
        | none => threshold_speed * (72 / 100)

/-- One iteration of the `calc_time_and_distance` loop, accumulating
exact (unrounded) seconds and meters. The per-rep interval loop is
rendered as multiplication by the number of executed reps
(`range(reps)` runs `max reps 0` times). -/
def calcStep (threshold_speed : ℚ) (acc : ℚ × ℚ) (step : DslStep) :
    Except PyErr (ℚ × ℚ) :=
  if step.type_ = sl "warmup" ∨ step.type_ = sl "steady" ∨ step.type_ = sl "cooldown" then
    match step.duration with
    | none => .error .keyError
    | some d =>
      match parse_length d with
      | .error e => .error e
      | .ok (dv, du) =>
        let speed := pctToSpeed step.target threshold_speed
        if du = sl "second" then .ok (acc.1 + (dv : ℚ), acc.2 + (dv : ℚ) * speed)
        else .ok (acc.1 + (if 0 < speed then (dv : ℚ) / speed else 0), acc.2 + (dv : ℚ))
  else if step.type_ = sl "interval" then
    match step.on_ with
    | none => .error .keyError
    | some onL =>
      match parse_length onL with
      | .error e => .error e
      | .ok (onv, onu) =>
        match step.off with
        | none => .error .keyError
        | some offL =>
          match parse_length offL with
          | .error e => .error e
          | .ok (offv, offu) =>
            let reps := step.reps.getD 1
            let on_speed := pctToSpeed step.on_target threshold_speed
            let off_speed := pctToSpeed step.off_target threshold_speed
            let onLeg : ℚ × ℚ :=
              if onu = sl "second" then ((onv : ℚ), (onv : ℚ) * on_speed)
              else ((if 0 < on_speed then (onv : ℚ) / on_speed else 0), (onv : ℚ))
            let offLeg : ℚ × ℚ :=
              if offu = sl "second" then ((offv : ℚ), (offv : ℚ) * off_speed)
              else ((if 0 < off_speed then (offv : ℚ) / off_speed else 0), (offv : ℚ))
            .ok (acc.1 + (reps.toNat : ℚ) * (onLeg.1 + offLeg.1),
              acc.2 + (reps.toNat : ℚ) * (onLeg.2 + offLeg.2))
  else .ok acc

/-- The `calc_time_and_distance` loop over all steps (exact totals,
before rounding). -/
def calcFold (threshold_speed : ℚ) : (ℚ × ℚ) → List DslStep → Except PyErr (ℚ × ℚ)
  | acc, [] => .ok acc
  | acc, s :: rest =>
    match calcStep threshold_speed acc s with
    | .error e => .error e
    | .ok acc2 => calcFold threshold_speed acc2 rest

/-- `calc_time_and_distance` from upload.py: the exact totals with
`int(total + 0.5)` applied to each (truncation toward zero of
total+0.5). -/
def calc_time_and_distance (steps : List DslStep) (threshold_speed : ℚ) :
    Except PyErr (ℤ × ℤ) :=
  match calcFold threshold_speed (0, 0) steps with
  | .error e => .error e
  | .ok (s, m) => .ok (ratTrunc (s + 1 / 2), ratTrunc (m + 1 / 2))

/-- Round half up: the nearest integer, with ties toward +infinity. -/
def halfUp (q : ℚ) : ℤ := (q + 1 / 2).floor

/-- Truncating `q + 1/2` toward zero is round-half-up whenever `q` is
non-negative. -/
theorem ratTrunc_eq_halfUp (q : ℚ) (h : 0 ≤ q) : ratTrunc (q + 1 / 2) = halfUp q := by
  unfold ratTrunc halfUp
  rw [if_neg]
  push_neg
  linarith

/-- Truncation of an integer rational is the integer itself. -/
theorem ratTrunc_intCast (n : ℤ) : ratTrunc ((n : ℤ) : ℚ) = n := by
  unfold ratTrunc
  split_ifs with h
  · rw [show (-(n : ℚ)) = ((-n : ℤ) : ℚ) by push_cast; ring]
    rw [show ((-n : ℤ) : ℚ).floor = ⌊((-n : ℤ) : ℚ)⌋ from rfl, Int.floor_intCast]
    ring
  · rw [show ((n : ℤ) : ℚ).floor = ⌊((n : ℤ) : ℚ)⌋ from rfl, Int.floor_intCast]

/-- `Rat.floor` of an integer over a natural agrees with integer
division. -/
theorem ratFloor_div (n : ℤ) (d : ℕ) : ((n : ℚ) / (d : ℚ)).floor = n / (d : ℤ) := by
  rw [show ((n : ℚ) / (d : ℚ)).floor = ⌊((n : ℚ) / (d : ℚ))⌋ from rfl]
  exact Rat.floor_intCast_div_natCast n d

/-- The steady step with a negative duration used to refute the
unrestricted half-up claim. -/
def negStep : DslStep :=
  DslStep.mk (sl "steady") (some (sl "-100")) none none none none none none none none none

/-- Counterexample for C6: on a steady step of duration "-100" the
exact totals are (-100, -288), the code returns (-99, -287), but
half-up rounding of the exact totals gives (-100, -288). -/
theorem C6_counterexample :
    calcFold 4 (0, 0) [negStep] = .ok (-100, -288) ∧
    calc_time_and_distance [negStep] 4 = .ok (-99, -287) ∧
    halfUp (-100) = -100 ∧ halfUp (-288) = -288 ∧
    calc_time_and_distance [negStep] 4 ≠ .ok (halfUp (-100), halfUp (-288)) := by
  have hp : parse_length (sl "-100") = .ok (-100, sl "second") := by decide
  have hfold : calcFold 4 (0, 0) [negStep] = .ok (-100, -288) := by
    have ht : (negStep.type_ = sl "warmup" ∨ negStep.type_ = sl "steady" ∨
        negStep.type_ = sl "cooldown") := Or.inr (Or.inl rfl)
    have hd : negStep.duration = some (sl "-100") := rfl
    have htg : negStep.target = none := rfl
    simp only [calcFold, calcStep, if_pos ht, hd, hp, htg]
    norm_num [pctToSpeed]
  have hu1 : halfUp (-100) = -100 := by
    unfold halfUp
    rw [show ((-100 : ℚ) + 1 / 2) = ((-199 : ℤ) : ℚ) / ((2 : ℕ) : ℚ) by norm_num]
    rw [ratFloor_div]
    decide
  have hu2 : halfUp (-288) = -288 := by
    unfold halfUp
    rw [show ((-288 : ℚ) + 1 / 2) = ((-575 : ℤ) : ℚ) / ((2 : ℕ) : ℚ) by norm_num]
    rw [ratFloor_div]
    decide
  have hcalc : calc_time_and_distance [negStep] 4 = .ok (-99, -287) := by
    simp only [calc_time_and_distance, hfold]
    have t1 : ratTrunc ((-100 : ℚ) + 1 / 2) = -99 := by
      unfold ratTrunc
      rw [if_pos (by norm_num)]
      rw [show (-((-100 : ℚ) + 1 / 2)) = ((199 : ℤ) : ℚ) / ((2 : ℕ) : ℚ) by norm_num]
      rw [ratFloor_div]
      decide
    have t2 : ratTrunc ((-288 : ℚ) + 1 / 2) = -287 := by
      unfold ratTrunc
      rw [if_pos (by norm_num)]
      rw [show (-((-288 : ℚ) + 1 / 2)) = ((575 : ℤ) : ℚ) / ((2 : ℕ) : ℚ) by norm_num]
      rw [ratFloor_div]
      decide
    rw [t1, t2]
  refine ⟨hfold, hcalc, hu1, hu2, ?_⟩
  rw [hcalc, hu1, hu2]
  simp

/-- The contribution of one leg (or one steady-like step) to the
exact totals: (seconds, meters) given the parsed length and the
resolved speed. -/
def legContribution (u : Str) (v : ℤ) (speed : ℚ) : ℚ × ℚ :=
  if u = sl "second" then ((v : ℚ), (v : ℚ) * speed)
  else ((if 0 < speed then (v : ℚ) / speed else 0), (v : ℚ))

/-- The spec's warmup 10:00 at 70%. -/
def wuStep : DslStep :=
  DslStep.mk (sl "warmup") (some (sl "10:00")) none none none none none
    (some (sl "70%")) none none none

/-- The spec's steady 5km at 80%. -/
def stStep : DslStep :=
  DslStep.mk (sl "steady") (some (sl "5km")) none none none none none
    (some (sl "80%")) none none none

/-- The spec's interval 2 x (1:00 at 100% / 0:30 at 70%). -/
def ivStep : DslStep :=
  DslStep.mk (sl "interval") none (some (sl "1:00")) (some (sl "0:30")) none none none
    none (some (sl "100%")) (some (sl "70%")) (some 2)

/-- C6 (amended): the estimator accumulates per-step exact rational
totals (seconds += value and meters += value*speed for time lengths,
meters += value and seconds += value/speed — skipped when speed is not
positive — for distance lengths, interval legs multiplied by the reps
count), resolves pace as range midpoint, single value, or the 72%
default, and rounds each final total as `int(total + 0.5)`, which
equals half-up rounding whenever the exact totals are non-negative;
on the spec's example steps with threshold speed 4 it returns
(2343, 7328). -/
theorem C6_calc_time_and_distance :
    (∀ (steps : List DslStep) (ts S M : ℚ),
      calcFold ts (0, 0) steps = .ok (S, M) → 0 ≤ S → 0 ≤ M →
      calc_time_and_distance steps ts = .ok (halfUp S, halfUp M))
    ∧ (∀ (ts : ℚ) (acc : ℚ × ℚ) (s : DslStep) (d : Str) (v : ℤ) (u : Str),
      (s.type_ = sl "warmup" ∨ s.type_ = sl "steady" ∨ s.type_ = sl "cooldown") →
      s.duration = some d → parse_length d = .ok (v, u) →
      calcStep ts acc s =
        .ok (acc.1 + (legContribution u v (pctToSpeed s.target ts)).1,
          acc.2 + (legContribution u v (pctToSpeed s.target ts)).2))
    ∧ (∀ (ts : ℚ) (acc : ℚ × ℚ) (s : DslStep) (onL offL : Str) (onv offv : ℤ)
        (onu offu : Str),
      s.type_ = sl "interval" →
      s.on_ = some onL → parse_length onL = .ok (onv, onu) →
      s.off = some offL → parse_length offL = .ok (offv, offu) →
      calcStep ts acc s =
        .ok (acc.1 + ((s.reps.getD 1).toNat : ℚ) *
            ((legContribution onu onv (pctToSpeed s.on_target ts)).1 +
              (legContribution offu offv (pctToSpeed s.off_target ts)).1),
          acc.2 + ((s.reps.getD 1).toNat : ℚ) *
            ((legContribution onu onv (pctToSpeed s.on_target ts)).2 +
              (legContribution offu offv (pctToSpeed s.off_target ts)).2)))
    ∧ (∀ ts : ℚ, pctToSpeed none ts = ts * (72 / 100))
    ∧ (∀ (ts : ℚ) (s : Str) (a b : ℕ), s.isEmpty = false → matchRange s = some (a, b) →
      pctToSpeed (some s) ts = ts * ((((a : ℚ) + (b : ℚ)) / 2) / 100))
    ∧ (∀ (ts : ℚ) (s : Str) (n : ℕ), s.isEmpty = false → matchRange s = none →
      leadingDigits s = some n → pctToSpeed (some s) ts = ts * ((n : ℚ) / 100))
    ∧ calc_time_and_distance [wuStep, stStep, ivStep] 4 = .ok (2343, 7328) := by
  have hsp70 : pctToSpeed (some (sl "70%")) 4 = 14 / 5 := by
    simp only [pctToSpeed, show matchRange (sl "70%") = none from by decide,
      show leadingDigits (sl "70%") = some 70 from by decide,
      show (sl "70%").isEmpty = false from by decide]
    norm_num
  have hsp80 : pctToSpeed (some (sl "80%")) 4 = 16 / 5 := by
    simp only [pctToSpeed, show matchRange (sl "80%") = none from by decide,
      show leadingDigits (sl "80%") = some 80 from by decide,
      show (sl "80%").isEmpty = false from by decide]
    norm_num
  have hsp100 : pctToSpeed (some (sl "100%")) 4 = 4 := by
    simp only [pctToSpeed, show matchRange (sl "100%") = none from by decide,
      show leadingDigits (sl "100%") = some 100 from by decide,
      show (sl "100%").isEmpty = false from by decide]
    norm_num
  have hp2 : parse_length (sl "5km") = .ok (5000, sl "meter") := by
    have h5 : strToFloat ((trimL (sl "5km")).take ((trimL (sl "5km")).length - 2)) =
        some 5 := by decide
    simp only [parse_length, h5,
      show endsWithL (sl "km") (trimL (sl "5km")) = true from by decide, if_true]
    rw [show ((5 : ℚ) * 1000) = ((5000 : ℤ) : ℚ) by norm_num, ratTrunc_intCast]
  refine ⟨?_, ?_, ?_, ?_, ?_, ?_, ?_⟩
  · intro steps ts S M h hS hM
    simp only [calc_time_and_distance, h]
    rw [ratTrunc_eq_halfUp S hS, ratTrunc_eq_halfUp M hM]
  · intro ts acc s d v u ht hd hp
    simp only [calcStep, if_pos ht, hd, hp, legContribution]
    split_ifs <;> rfl
  · intro ts acc s onL offL onv offv onu offu ht hon hpon hoff hpoff
    simp only [calcStep, ht, hon, hpon, hoff, hpoff, legContribution]
    rw [if_neg (by decide : ¬((sl "interval" : Str) = sl "warmup" ∨
      (sl "interval" : Str) = sl "steady" ∨ (sl "interval" : Str) = sl "cooldown"))]
    simp
  · intro ts
    rfl
  · intro ts s a b he hr
    simp only [pctToSpeed, he, hr, Bool.false_eq_true, if_false]
  · intro ts s n he hr hl
    simp only [pctToSpeed, he, hr, hl, Bool.false_eq_true, if_false]
  · have hw : calcStep 4 (0, 0) wuStep = .ok (600, 1680) := by
      have ht : (wuStep.type_ = sl "warmup" ∨ wuStep.type_ = sl "steady" ∨
          wuStep.type_ = sl "cooldown") := Or.inl rfl
      simp only [calcStep, if_pos ht, show wuStep.duration = some (sl "10:00") from rfl,
        show parse_length (sl "10:00") = .ok (600, sl "second") from by decide,
        show wuStep.target = some (sl "70%") from rfl, hsp70]
      norm_num
    have hs : calcStep 4 (600, 1680) stStep = .ok (4325 / 2, 6680) := by
      have ht : (stStep.type_ = sl "warmup" ∨ stStep.type_ = sl "steady" ∨
          stStep.type_ = sl "cooldown") := Or.inr (Or.inl rfl)
      simp only [calcStep, if_pos ht, show stStep.duration = some (sl "5km") from rfl,
        hp2, show stStep.target = some (sl "80%") from rfl, hsp80,
        show ((sl "meter" : Str) = sl "second") = False from by decide, if_false]
      norm_num
    have hi : calcStep 4 (4325 / 2, 6680) ivStep = .ok (4685 / 2, 7328) := by
      simp only [calcStep, show ivStep.type_ = sl "interval" from rfl,
        show ivStep.on_ = some (sl "1:00") from rfl,
        show parse_length (sl "1:00") = .ok (60, sl "second") from by decide,
        show ivStep.off = some (sl "0:30") from rfl,
        show parse_length (sl "0:30") = .ok (30, sl "second") from by decide,
        show ivStep.on_target = some (sl "100%") from rfl,
        show ivStep.off_target = some (sl "70%") from rfl,
        show ivStep.reps = some 2 from rfl, hsp100, hsp70]
      rw [if_neg (by decide : ¬((sl "interval" : Str) = sl "warmup" ∨
        (sl "interval" : Str) = sl "steady" ∨ (sl "interval" : Str) = sl "cooldown"))]
      norm_num [show Int.toNat 2 = 2 from rfl]
    have hfold3 : calcFold 4 (0, 0) [wuStep, stStep, ivStep] = .ok (4685 / 2, 7328) := by
      simp only [calcFold, hw, hs, hi]
    simp only [calc_time_and_distance, hfold3]
    have t1 : ratTrunc ((4685 : ℚ) / 2 + 1 / 2) = 2343 := by
      rw [show ((4685 : ℚ) / 2 + 1 / 2) = ((2343 : ℤ) : ℚ) by norm_num, ratTrunc_intCast]
    have t2 : ratTrunc ((7328 : ℚ) + 1 / 2) = 7328 := by
      unfold ratTrunc
      rw [if_neg (by norm_num)]
      rw [show ((7328 : ℚ) + 1 / 2) = ((14657 : ℤ) : ℚ) / ((2 : ℕ) : ℚ) by norm_num,
        ratFloor_div]
      decide
    rw [t1, t2]

/-- Witness for C6 (amended) at a single steady step of 90 seconds
with no target. -/
theorem C6_calc_time_and_distance_witness :
    (calcFold 4 (0, 0) [DslStep.mk (sl "steady") (some (sl "90")) none none none none none
        none none none none] = .ok (90, 1296 / 5) ∧
      (0 : ℚ) ≤ 90 ∧ (0 : ℚ) ≤ 1296 / 5) ∧
    calc_time_and_distance [DslStep.mk (sl "steady") (some (sl "90")) none none none none
        none none none none none] 4 = .ok (halfUp 90, halfUp (1296 / 5)) := by
  have hfold : calcFold 4 (0, 0) [DslStep.mk (sl "steady") (some (sl "90")) none none none
      none none none none none none] = .ok (90, 1296 / 5) := by
    simp only [calcFold, calcStep,
      if_pos (Or.inr (Or.inl rfl) : (DslStep.mk (sl "steady") (some (sl "90")) none none
        none none none none none none none).type_ = sl "warmup" ∨ _ = sl "steady" ∨
        _ = sl "cooldown"),
      show (DslStep.mk (sl "steady") (some (sl "90")) none none none none none none none
        none none).duration = some (sl "90") from rfl,
      show parse_length (sl "90") = .ok (90, sl "second") from by decide,
      show (DslStep.mk (sl "steady") (some (sl "90")) none none none none none none none
        none none).target = none from rfl]
    norm_num [pctToSpeed]
  refine ⟨⟨hfold, by norm_num, by norm_num⟩, ?_⟩
  exact C6_calc_time_and_distance.1 _ 4 90 (1296 / 5) hfold (by norm_num) (by norm_num)

/-! ## Injury-risk analysis (src/tp_cli/core/analysis.py, analyze_patterns) -/

/-- Banker's rounding to an integer (the Python built-in `round`). -/
def roundHalfEven (x : ℚ) : ℤ :=
  let f := x.floor
  let r := x - f
  if r < 1 / 2 then f
  else if 1 / 2 < r then f + 1
  else if Even f then f else f + 1

/-- Python `round(x, 1)`. -/
def pyRound1 (q : ℚ) : ℚ := (roundHalfEven (q * 10) : ℚ) / 10

/-- A risk factor dictionary emitted by the injury-risk analysis
(`type` is the constant "hard_session_spike" and is omitted). -/
structure RiskFactor where
  week : Str
  increase_pct : ℚ
  severity : Str
  recommendation : Str
deriving DecidableEq

/-- The consecutive-week loop of `analyze_patterns`: the input is the
weekly hard-session table `(week key, total_hard)` in sorted key
order, as produced by `sorted(weekly.keys())`. -/
def injuryRiskFactors : List (Str × ℕ) → List RiskFactor
  | [] => []
  | [_] => []
  | p :: c :: rest =>
    (if 0 < p.2 ∧ 40 ≤ ((c.2 : ℚ) - (p.2 : ℚ)) / (p.2 : ℚ) * 100 then
      [⟨c.1, pyRound1 (((c.2 : ℚ) - (p.2 : ℚ)) / (p.2 : ℚ) * 100),
        (if 60 ≤ ((c.2 : ℚ) - (p.2 : ℚ)) / (p.2 : ℚ) * 100 then sl "high" else sl "medium"),
        sl "Consider a recovery week or reducing intensity density"⟩]
     else []) ++ injuryRiskFactors (c :: rest)

/-- The `risk_factors` entry of the `analyze_patterns` payload: present
exactly when injury-risk mode is requested. -/
def patternsRiskFactors (injury_risk : Bool) (weekly : List (Str × ℕ)) :
    Option (List RiskFactor) :=
  if injury_risk then some (injuryRiskFactors weekly) else none

/-- The factor list is the filter-map over consecutive pairs of the
sorted weekly table. -/
theorem injuryRiskFactors_eq (tbl : List (Str × ℕ)) :
    injuryRiskFactors tbl =
      (tbl.zip tbl.tail).filterMap (fun pc =>
        if 0 < pc.1.2 ∧ 40 ≤ ((pc.2.2 : ℚ) - (pc.1.2 : ℚ)) / (pc.1.2 : ℚ) * 100 then
          some ⟨pc.2.1, pyRound1 (((pc.2.2 : ℚ) - (pc.1.2 : ℚ)) / (pc.1.2 : ℚ) * 100),
            (if 60 ≤ ((pc.2.2 : ℚ) - (pc.1.2 : ℚ)) / (pc.1.2 : ℚ) * 100 then sl "high"
             else sl "medium"),
            sl "Consider a recovery week or reducing intensity density"⟩
        else none) := by
  induction tbl with
  | nil => rfl
  | cons p t ih =>
    cases t with
    | nil => rfl
    | cons c rest =>
      by_cases h : 0 < p.2 ∧ 40 ≤ ((c.2 : ℚ) - (p.2 : ℚ)) / (p.2 : ℚ) * 100
      · simp only [injuryRiskFactors, if_pos h, List.tail_cons, List.zip_cons_cons,
          List.filterMap_cons, if_pos h]
        rw [ih]
        rfl
      · simp only [injuryRiskFactors, if_neg h, List.tail_cons, List.zip_cons_cons,
          List.filterMap_cons, if_neg h]
        rw [ih]
        rfl

/-- C8: in injury-risk mode, for each consecutive pair of sorted
weekly keys a factor is emitted for the later week iff the earlier
total_hard is positive and the percent increase is at least 40, with
severity high exactly when the increase is at least 60 and medium
otherwise, carrying the recovery recommendation; without injury-risk
mode no risk factors are reported. -/
theorem C8_injury_risk :
    (∀ tbl : List (Str × ℕ), patternsRiskFactors false tbl = none)
    ∧ (∀ tbl : List (Str × ℕ),
      patternsRiskFactors true tbl = some (injuryRiskFactors tbl))
    ∧ (∀ tbl : List (Str × ℕ),
      injuryRiskFactors tbl =
        (tbl.zip tbl.tail).filterMap (fun pc =>
          if 0 < pc.1.2 ∧ 40 ≤ ((pc.2.2 : ℚ) - (pc.1.2 : ℚ)) / (pc.1.2 : ℚ) * 100 then
            some ⟨pc.2.1, pyRound1 (((pc.2.2 : ℚ) - (pc.1.2 : ℚ)) / (pc.1.2 : ℚ) * 100),
              (if 60 ≤ ((pc.2.2 : ℚ) - (pc.1.2 : ℚ)) / (pc.1.2 : ℚ) * 100 then sl "high"
               else sl "medium"),
              sl "Consider a recovery week or reducing intensity density"⟩
          else none))
    ∧ (∀ (tbl : List (Str × ℕ)) (f : RiskFactor), f ∈ injuryRiskFactors tbl →
      f.recommendation = sl "Consider a recovery week or reducing intensity density" ∧
      (f.severity = sl "high" ∨ f.severity = sl "medium")) := by
  refine ⟨fun tbl => rfl, fun tbl => rfl, injuryRiskFactors_eq, ?_⟩
  intro tbl f hf
  rw [injuryRiskFactors_eq] at hf
  rw [List.mem_filterMap] at hf
  obtain ⟨pc, _, hpc⟩ := hf
  by_cases h : 0 < pc.1.2 ∧ 40 ≤ ((pc.2.2 : ℚ) - (pc.1.2 : ℚ)) / (pc.1.2 : ℚ) * 100
  · rw [if_pos h] at hpc
    obtain rfl : f = _ := (Option.some.injEq _ _).mp hpc.symm
    constructor
    · rfl
    · by_cases h60 : 60 ≤ ((pc.2.2 : ℚ) - (pc.1.2 : ℚ)) / (pc.1.2 : ℚ) * 100
      · left
        simp [if_pos h60]
      · right
        simp [if_neg h60]
  · rw [if_neg h] at hpc
    cases hpc

/-- `Rat.floor` of an integer cast. -/
theorem ratFloor_intCast (n : ℤ) : ((n : ℤ) : ℚ).floor = n := by
  rw [show ((n : ℤ) : ℚ).floor = ⌊((n : ℤ) : ℚ)⌋ from rfl, Int.floor_intCast]

/-- Witness for C8: with hard counts 2 then 4 (a 100% increase), a
high-severity factor with the recovery recommendation is emitted for
the later week. -/
theorem C8_injury_risk_witness :
    (RiskFactor.mk (sl "2026-W02") 100 (sl "high")
        (sl "Consider a recovery week or reducing intensity density") ∈
      injuryRiskFactors [(sl "2026-W01", 2), (sl "2026-W02", 4)]) ∧
    (RiskFactor.mk (sl "2026-W02") 100 (sl "high")
        (sl "Consider a recovery week or reducing intensity density")).recommendation =
      sl "Consider a recovery week or reducing intensity density" ∧
    ((RiskFactor.mk (sl "2026-W02") 100 (sl "high")
        (sl "Consider a recovery week or reducing intensity density")).severity = sl "high" ∨
      (RiskFactor.mk (sl "2026-W02") 100 (sl "high")
        (sl "Consider a recovery week or reducing intensity density")).severity =
        sl "medium") := by
  have hinc : ((((4 : ℕ) : ℚ)) - (((2 : ℕ) : ℚ))) / (((2 : ℕ) : ℚ)) * 100 = 100 := by
    norm_num
  have hround : pyRound1 100 = 100 := by
    unfold pyRound1 roundHalfEven
    rw [show ((100 : ℚ) * 10) = ((1000 : ℤ) : ℚ) by norm_num, ratFloor_intCast]
    norm_num
  have hfac : injuryRiskFactors [(sl "2026-W01", 2), (sl "2026-W02", 4)] =
      [RiskFactor.mk (sl "2026-W02") 100 (sl "high")
        (sl "Consider a recovery week or reducing intensity density")] := by
    simp only [injuryRiskFactors, hinc]
    rw [if_pos (by norm_num), if_pos (by norm_num : (60 : ℚ) ≤ 100), hround]
    rfl
  have hmem : RiskFactor.mk (sl "2026-W02") 100 (sl "high")
      (sl "Consider a recovery week or reducing intensity density") ∈
      injuryRiskFactors [(sl "2026-W01", 2), (sl "2026-W02", 4)] := by
    rw [hfac]
    exact List.mem_singleton.mpr rfl
  exact ⟨hmem, (C8_injury_risk.2.2.2 _ _ hmem).1, (C8_injury_risk.2.2.2 _ _ hmem).2⟩
